import Mathlib

/-!
# Ephemeral CSI volume manager: shallow embedding

Embedding of `pkg/volume/manager.go`, `pkg/volume/node.go` and the controller and
node methods of `pkg/driver/driver.go`.

* Go strings are Lean `String`s, `int64` quantities are `Int`s (no arithmetic is
  performed on them by the embedded code, so no wrap-around can occur).
* The `map[string]*Volume` registry is an association list with unique keys
  (`AList`); a `*Volume` stored in the map is the value bound to its key, so a
  write through the pointer is a rebinding of that key. Go leaves the iteration
  order of a map unspecified; no statement below depends on the order of the list.
* The operating system is an explicit state `FS`: the directory tree, the table of
  bind mounts and the set of locations at which the kernel refuses a modification.
  Only directories exist (no regular files, no symbolic links), so a path is
  resolved lexically, element by element. A system call fails for the reasons the
  Go documentation gives (empty path, missing directory, not a mount point, a
  trailing `.` for `RemoveAll`) or because it meets a refused location; a failing
  `MkdirAll` keeps the parents it created and a failing `RemoveAll` keeps only what
  could not be removed.
* Every embedded method takes the state of the world and returns its result
  together with the state of the world it leaves behind. For the driver the state
  of the world also records every call made to the operating system, so that
  "makes no call" can be stated.
* The mutex is not modelled: calls are executed one at a time.
-/

namespace EphemeralCSI

/-! ## Paths (`path/filepath` on a Unix system) -/

/-- Cut a character sequence at each path separator. -/
def splitSep : List Char → List (List Char)
  | [] => [[]]
  | c :: cs =>
    if c = '/' then [] :: splitSep cs
    else
      match splitSep cs with
      | [] => [[c]]
      | x :: xs => (c :: x) :: xs

/-- The elements of a path: the pieces between separators, empty pieces included. -/
def elements (p : String) : List String :=
  (splitSep p.data).map String.mk

/-- Whether the path starts at the root. -/
def rooted (p : String) : Bool :=
  match p.data with
  | c :: _ => c = '/'
  | [] => false

/-- One element of the lexical clean-up performed by `filepath.Clean`. The stack holds
the elements kept so far, innermost first. -/
def cleanStep (isRooted : Bool) (stack : List String) (e : String) : List String :=
  if e = "" ∨ e = "." then stack
  else if e = ".." then
    match stack with
    | [] => if isRooted then [] else [".."]
    | top :: rest => if top = ".." then ".." :: top :: rest else rest
  else e :: stack

/-- Go `filepath.Clean`. -/
def Clean (p : String) : String :=
  if p = "" then "."
  else
    let body := "/".intercalate ((elements p).foldl (cleanStep (rooted p)) []).reverse
    if rooted p then "/" ++ body
    else if body = "" then "." else body

/-- Go `filepath.Join`: leading empty elements are ignored, the rest is joined with
separators and cleaned. -/
def Join (elem : List String) : String :=
  match elem.dropWhile (fun e => e = "") with
  | [] => ""
  | rest => Clean ("/".intercalate rest)

/-! ## The operating system: directory tree and bind mounts -/

/-- A location in the directory tree: the names leading to it from the root. -/
abbrev Loc := List String

/-- Errors of the operating system, as far as the embedded code can meet them. -/
inductive OSError where
  | ENOENT
  | EINVAL
  | EACCES
  | EBUSY
  | exitStatus
deriving DecidableEq, Repr

/-- State of the operating system. Only directories are modelled. `mounts` lists the
active bind mounts as (target, source) pairs, the most recent first; directory
look-up is not redirected through a mount. `denied` lists the locations at which the
kernel refuses to create, remove, mount or unmount. -/
structure FS where
  cwd : Loc
  dirs : List Loc
  mounts : List (Loc × Loc)
  denied : List Loc
deriving DecidableEq, Repr

/-- Kernel path resolution (no symbolic links exist): relative paths start at the
working directory, `..` at the root stays at the root. -/
def resolve (cwd : Loc) (p : String) : Loc :=
  ((elements p).foldl (cleanStep true) (if rooted p then [] else cwd.reverse)).reverse

/-- Whether the second location is the first one or lies beneath it. -/
def beneath : Loc → Loc → Bool
  | [], _ => true
  | _ :: _, [] => false
  | a :: as, b :: bs => a = b && beneath as bs

namespace FS

/-- The location a path names. -/
def locate (fs : FS) (p : String) : Loc := resolve fs.cwd p

/-- The root always exists; any other location exists when it is in `dirs`. -/
def hasDir (fs : FS) (l : Loc) : Bool := l = [] || decide (l ∈ fs.dirs)

/-- Whether `os.Stat` finds a directory at the path. -/
def isDir (fs : FS) (p : String) : Bool := p ≠ "" && fs.hasDir (fs.locate p)

/-- A directory that cannot be removed: the kernel refuses, or a directory beneath it
cannot be removed. -/
def pinned (fs : FS) (l : Loc) : Bool :=
  fs.dirs.any (fun d => beneath l d && decide (d ∈ fs.denied))

/-- The tree after removing whatever can be removed at or beneath `l`. -/
def prune (fs : FS) (l : Loc) : FS :=
  { fs with dirs := fs.dirs.filter (fun d => !(beneath l d) || fs.pinned d) }

/-- Whether the tree is closed under parents: whatever lies above an existing
directory exists. -/
def closed (fs : FS) : Bool :=
  fs.dirs.all (fun d => d.inits.all (fun p => fs.hasDir p))

end FS

/-- Create the missing directories along `todo` below `done`, outermost first; stops
at the first refusal and keeps what was created before it. -/
def mkdirFrom (fs : FS) (done : Loc) : List String → Option OSError × FS
  | [] => (none, fs)
  | e :: rest =>
    if fs.hasDir (done ++ [e]) then mkdirFrom fs (done ++ [e]) rest
    else if (done ++ [e]) ∈ fs.denied then (some .EACCES, fs)
    else mkdirFrom { fs with dirs := (done ++ [e]) :: fs.dirs } (done ++ [e]) rest

/-- Go `os.MkdirAll`: succeeds at once when the directory exists, otherwise creates
it and its missing parents. -/
def MkdirAll (fs : FS) (path : String) : Option OSError × FS :=
  if path = "" then (some .ENOENT, fs)
  else if fs.hasDir (fs.locate path) then (none, fs)
  else mkdirFrom fs [] (fs.locate path)

/-- Whether the path is `.` or ends in `/.` (refused by `os.RemoveAll`). -/
def endsWithDot (p : String) : Bool :=
  match p.data.reverse with
  | ['.'] => true
  | '.' :: '/' :: _ => true
  | _ => false

/-- Go `os.RemoveAll`: removes the directory and everything beneath it; a missing path
and the empty path succeed. What cannot be removed stays and makes the call fail. -/
def RemoveAll (fs : FS) (path : String) : Option OSError × FS :=
  if path = "" then (none, fs)
  else if endsWithDot path then (some .EINVAL, fs)
  else if (fs.prune (fs.locate path)).hasDir (fs.locate path) then
    (some (if fs.locate path = [] then .EBUSY else .EACCES), fs.prune (fs.locate path))
  else (none, fs.prune (fs.locate path))

/-- The command `mount --bind source target`. -/
def mountBind (fs : FS) (source target : String) : Option OSError × FS :=
  if !(fs.isDir source) || !(fs.isDir target) then (some .exitStatus, fs)
  else if fs.locate target ∈ fs.denied then (some .exitStatus, fs)
  else (none, { fs with mounts := (fs.locate target, fs.locate source) :: fs.mounts })

/-- Go `syscall.Unmount(target, 0)`: detaches the topmost mount at the target; fails
when the target is missing or is not a mount point. -/
def Unmount (fs : FS) (target : String) : Option OSError × FS :=
  if !(fs.isDir target) then (some .ENOENT, fs)
  else if fs.mounts.all (fun m => decide (m.1 ≠ fs.locate target)) then (some .EINVAL, fs)
  else if fs.locate target ∈ fs.denied then (some .EBUSY, fs)
  else (none, { fs with mounts := fs.mounts.eraseP (fun m => decide (m.1 = fs.locate target)) })

/-! ## `pkg/volume/manager.go` -/

/-- Go `Volume`. -/
structure Volume where
  ID : String
  Path : String
  Size : Int
  PodID : String
  Retention : String
  MountPoint : String
  SubPath : String
  Usage : Int
  LastAccess : Int
deriving DecidableEq, Repr

/-- Go `csi.CapacityRange`. -/
structure CapacityRange where
  RequiredBytes : Int
  LimitBytes : Int
deriving DecidableEq, Repr

/-- Go `(*csi.CapacityRange).GetRequiredBytes`: zero on a nil range. -/
def GetRequiredBytes : Option CapacityRange → Int
  | none => 0
  | some r => r.RequiredBytes

/-- Indexing a Go `map[string]string`: the empty string when the key is missing. -/
def index (m : List (String × String)) (key : String) : String :=
  match m with
  | [] => ""
  | (k, v) :: rest => if k = key then v else index rest key

/-- Go `csi.CreateVolumeRequest`, the fields the manager reads. -/
structure CreateVolumeRequest where
  Name : String
  CapacityRange : Option CapacityRange
  Parameters : List (String × String)
deriving DecidableEq, Repr

/-- Go `csi.NodePublishVolumeRequest`, the fields the mounter reads. -/
structure NodePublishVolumeRequest where
  VolumeId : String
  TargetPath : String
  VolumeContext : List (String × String)
deriving DecidableEq, Repr

/-- Go `csi.NodeUnpublishVolumeRequest`. -/
structure NodeUnpublishVolumeRequest where
  VolumeId : String
  TargetPath : String
deriving DecidableEq, Repr

/-- The errors built with `fmt.Errorf`, one constructor for each message. -/
inductive Error where
  | volumeNotFound (volumeID : String)
  | createBaseDirectory (cause : OSError)
  | createVolumeDirectory (cause : OSError)
  | deleteVolumeDirectory (cause : OSError)
  | getVolume (cause : Error)
  | createTargetDirectory (cause : OSError)
  | createSubpathDirectory (cause : OSError)
  | bindMount (cause : OSError)
  | bindMountSubpath (cause : Error)
  | bindMountVolume (cause : Error)
  | unmountVolume (cause : OSError)
  | removeTargetDirectory (cause : OSError)
deriving DecidableEq, Repr

/-- Go `VolumeManager` (without its mutex). -/
structure VolumeManager where
  baseDir : String
  volumes : AList (fun _ : String => Volume)
deriving DecidableEq

/-- The manager together with the operating system it acts on. -/
structure World where
  mgr : VolumeManager
  fs : FS
deriving DecidableEq

/-- Go `generateVolumeID`: `fmt.Sprintf("vol-%s", name)`. -/
def generateVolumeID (name : String) : String := "vol-" ++ name

/-- Go `parseSize`. -/
def parseSize (size : Int) : Int :=
  if size ≤ 0 then 2 ^ 30 else size

/-- Go `NewVolumeManager`. -/
def NewVolumeManager (fs : FS) (baseDir : String) : Except Error VolumeManager × FS :=
  match MkdirAll fs baseDir with
  | (some err, fs1) => (.error (.createBaseDirectory err), fs1)
  | (none, fs1) => (.ok { baseDir := baseDir, volumes := ∅ }, fs1)

/-- The `Volume` literal that `CreateVolume` builds from a request. -/
def freshVolume (baseDir : String) (req : CreateVolumeRequest) : Volume :=
  { ID := generateVolumeID req.Name,
    Path := Join [baseDir, generateVolumeID req.Name],
    Size := parseSize (GetRequiredBytes req.CapacityRange),
    PodID := index req.Parameters "podID",
    Retention := index req.Parameters "retentionPolicy",
    MountPoint := "", SubPath := "", Usage := 0, LastAccess := 0 }

namespace VolumeManager

/-- Go `(*VolumeManager).CreateVolume`. -/
def CreateVolume (w : World) (req : CreateVolumeRequest) : Except Error Volume × World :=
  let volumeID := generateVolumeID req.Name
  let volumePath := Join [w.mgr.baseDir, volumeID]
  match MkdirAll w.fs volumePath with
  | (some err, fs1) => (.error (.createVolumeDirectory err), { w with fs := fs1 })
  | (none, fs1) =>
    let size := parseSize (GetRequiredBytes req.CapacityRange)
    let retention := index req.Parameters "retentionPolicy"
    let podID := index req.Parameters "podID"
    let volume : Volume :=
      { ID := volumeID, Path := volumePath, Size := size, PodID := podID,
        Retention := retention, MountPoint := "", SubPath := "", Usage := 0,
        LastAccess := 0 }
    (.ok volume,
      { mgr := { w.mgr with volumes := w.mgr.volumes.insert volumeID volume }, fs := fs1 })

/-- Go `(*VolumeManager).DeleteVolume`. -/
def DeleteVolume (w : World) (volumeID : String) : Except Error Unit × World :=
  match w.mgr.volumes.lookup volumeID with
  | none => (.error (.volumeNotFound volumeID), w)
  | some volume =>
    match RemoveAll w.fs volume.Path with
    | (some err, fs1) => (.error (.deleteVolumeDirectory err), { w with fs := fs1 })
    | (none, fs1) =>
      (.ok (), { mgr := { w.mgr with volumes := w.mgr.volumes.erase volumeID }, fs := fs1 })

/-- Go `(*VolumeManager).GetVolume`. -/
def GetVolume (w : World) (volumeID : String) : Except Error Volume :=
  match w.mgr.volumes.lookup volumeID with
  | none => .error (.volumeNotFound volumeID)
  | some volume => .ok volume

/-- Go `(*VolumeManager).ListVolumes`: the values of the map, one for each key. -/
def ListVolumes (w : World) : List Volume :=
  w.mgr.volumes.entries.map (fun e => e.2)

/-- Go `(*VolumeManager).UpdateVolumeUsage`. -/
def UpdateVolumeUsage (w : World) (volumeID : String) (usage : Int) : Except Error Unit × World :=
  match w.mgr.volumes.lookup volumeID with
  | none => (.error (.volumeNotFound volumeID), w)
  | some volume =>
    (.ok (),
      { w with mgr := { w.mgr with
          volumes := w.mgr.volumes.insert volumeID { volume with Usage := usage } } })

end VolumeManager

/-! ## `pkg/volume/node.go` -/

/-- Go `bindMount`. -/
def bindMount (fs : FS) (source target : String) : Option Error × FS :=
  match mountBind fs source target with
  | (some err, fs1) => (some (.bindMount err), fs1)
  | (none, fs1) => (none, fs1)

namespace NodeMounter

/-- Record the mount point in the volume the registry holds under `volumeID` (the
write through the `*Volume` obtained from `GetVolume`). -/
def setMountPoint (w : World) (fs1 : FS) (volumeID : String) (volume : Volume)
    (mountPoint : String) : World :=
  { mgr := { w.mgr with
      volumes := w.mgr.volumes.insert volumeID { volume with MountPoint := mountPoint } },
    fs := fs1 }

/-- Go `(*NodeMounter).NodePublishVolume`. -/
def NodePublishVolume (w : World) (req : NodePublishVolumeRequest) : Except Error Unit × World :=
  let volumeID := req.VolumeId
  let targetPath := req.TargetPath
  match VolumeManager.GetVolume w volumeID with
  | .error err => (.error (.getVolume err), w)
  | .ok volume =>
    match MkdirAll w.fs targetPath with
    | (some err, fs1) => (.error (.createTargetDirectory err), { w with fs := fs1 })
    | (none, fs1) =>
      if index req.VolumeContext "subPath" ≠ "" then
        let subPath := index req.VolumeContext "subPath"
        let volumePath := Join [volume.Path, subPath]
        match MkdirAll fs1 volumePath with
        | (some err, fs2) => (.error (.createSubpathDirectory err), { w with fs := fs2 })
        | (none, fs2) =>
          match bindMount fs2 volumePath targetPath with
          | (some err, fs3) => (.error (.bindMountSubpath err), { w with fs := fs3 })
          | (none, fs3) => (.ok (), setMountPoint w fs3 volumeID volume targetPath)
      else
        match bindMount fs1 volume.Path targetPath with
        | (some err, fs2) => (.error (.bindMountVolume err), { w with fs := fs2 })
        | (none, fs2) => (.ok (), setMountPoint w fs2 volumeID volume targetPath)

/-- Go `(*NodeMounter).NodeUnpublishVolume`. -/
def NodeUnpublishVolume (w : World) (req : NodeUnpublishVolumeRequest) :
    Except Error Unit × World :=
  let volumeID := req.VolumeId
  let targetPath := req.TargetPath
  match VolumeManager.GetVolume w volumeID with
  | .error err => (.error (.getVolume err), w)
  | .ok volume =>
    match Unmount w.fs targetPath with
    | (some err, fs1) => (.error (.unmountVolume err), { w with fs := fs1 })
    | (none, fs1) =>
      match RemoveAll fs1 targetPath with
      | (some err, fs2) => (.error (.removeTargetDirectory err), { w with fs := fs2 })
      | (none, fs2) => (.ok (), setMountPoint w fs2 volumeID volume "")

end NodeMounter

/-! ## `pkg/driver/driver.go` -/

/-- A call made to the operating system. -/
inductive OSCall where
  | stat (path : String)
  | mkdirAll (path : String)
  | removeAll (path : String)
  | readDir (path : String)
  | mount (source target : String)
deriving DecidableEq, Repr

/-- The operating system as the driver sees it: its state and the calls made to it so
far, the oldest first. -/
structure OS where
  fs : FS
  calls : List OSCall
deriving DecidableEq, Repr

/-- Order of file names as `os.ReadDir` sorts them: byte-wise on the encoded name, which
for well-formed text is the lexicographic order of the characters. -/
def nameLE : List Char → List Char → Bool
  | [], _ => true
  | _ :: _, [] => false
  | a :: as, b :: bs => a.toNat < b.toNat || (a = b && nameLE as bs)

/-- The name of a location that lies directly in `parent`. -/
def childName (parent : Loc) (d : Loc) : Option String :=
  if beneath parent d && decide (d.length = parent.length + 1) then d.getLast? else none

namespace OS

/-- Go `os.Stat`, reduced to whether it finds the directory. -/
def stat (os : OS) (path : String) : Bool × OS :=
  (os.fs.isDir path, { os with calls := os.calls ++ [.stat path] })

/-- Go `os.MkdirAll`, recorded. -/
def mkdirAll (os : OS) (path : String) : Option OSError × OS :=
  ((MkdirAll os.fs path).1,
    { fs := (MkdirAll os.fs path).2, calls := os.calls ++ [.mkdirAll path] })

/-- Go `os.RemoveAll`, recorded. -/
def removeAll (os : OS) (path : String) : Option OSError × OS :=
  ((RemoveAll os.fs path).1,
    { fs := (RemoveAll os.fs path).2, calls := os.calls ++ [.removeAll path] })

/-- Go `os.ReadDir`: the names of the entries of the directory in ascending order; it
fails when the directory is missing. -/
def readDir (os : OS) (path : String) : Except OSError (List String) × OS :=
  (if os.fs.isDir path then
      .ok (((os.fs.dirs.filterMap (childName (os.fs.locate path))).dedup).insertionSort
        (fun a b => nameLE a.data b.data = true))
    else .error .ENOENT,
    { os with calls := os.calls ++ [.readDir path] })

/-- The command `mount --bind source target`, recorded. -/
def mount (os : OS) (source target : String) : Option OSError × OS :=
  ((mountBind os.fs source target).1,
    { fs := (mountBind os.fs source target).2, calls := os.calls ++ [.mount source target] })

end OS

/-- The gRPC status codes the driver returns. -/
inductive Code where
  | InvalidArgument
  | NotFound
  | Internal
  | Unimplemented
deriving DecidableEq, Repr

/-- A gRPC status built by `status.Error` or `status.Errorf`: code, message and the
error formatted into the message, if any. -/
structure Status where
  code : Code
  message : String
  cause : Option OSError
deriving DecidableEq, Repr

namespace csi

/-- Go `csi.Volume`, the fields the driver fills. -/
structure Volume where
  VolumeId : String
  CapacityBytes : Int
  VolumeContext : List (String × String)
deriving DecidableEq, Repr

/-- Go `csi.CreateVolumeResponse`. -/
structure CreateVolumeResponse where
  Volume : Volume
deriving DecidableEq, Repr

/-- Go `csi.DeleteVolumeRequest`. -/
structure DeleteVolumeRequest where
  VolumeId : String
deriving DecidableEq, Repr

/-- Go `csi.ListVolumesResponse_Entry`. -/
structure ListVolumesResponse_Entry where
  Volume : Volume
deriving DecidableEq, Repr

/-- Go `csi.ListVolumesResponse`. -/
structure ListVolumesResponse where
  Entries : List ListVolumesResponse_Entry
deriving DecidableEq, Repr

end csi

/-- Go `Driver`. -/
structure Driver where
  name : String
  version : String
  nodeID : String
  basePath : String
deriving DecidableEq, Repr

/-- The errors `NewDriver` builds with `fmt.Errorf`. -/
inductive DriverError where
  | basePathRequired
  | createBaseDirectory (cause : OSError)
deriving DecidableEq, Repr

/-- Go `NewDriver`. -/
def NewDriver (os : OS) (nodeID basePath : String) : Except DriverError Driver × OS :=
  if basePath = "" then (.error .basePathRequired, os)
  else
    match os.mkdirAll basePath with
    | (some err, os1) => (.error (.createBaseDirectory err), os1)
    | (none, os1) =>
      (.ok { name := "ephemeral.csi.local", version := "0.1.0", nodeID := nodeID,
             basePath := basePath }, os1)

namespace Driver

/-- Go `(*Driver).CreateVolume`. -/
def CreateVolume (d : Driver) (os : OS) (req : CreateVolumeRequest) :
    Except Status csi.CreateVolumeResponse × OS :=
  if req.Name = "" then
    (.error ⟨.InvalidArgument, "volume name is required", none⟩, os)
  else
    let size :=
      if GetRequiredBytes req.CapacityRange = 0 then 1 * 1024 * 1024 * 1024
      else GetRequiredBytes req.CapacityRange
    let volumePath := Join [d.basePath, req.Name]
    match os.mkdirAll volumePath with
    | (some err, os1) =>
      (.error ⟨.Internal, "failed to create volume directory", some err⟩, os1)
    | (none, os1) =>
      (.ok { Volume := { VolumeId := req.Name, CapacityBytes := size,
                         VolumeContext := req.Parameters } }, os1)

/-- Go `(*Driver).DeleteVolume`. -/
def DeleteVolume (d : Driver) (os : OS) (req : csi.DeleteVolumeRequest) :
    Except Status Unit × OS :=
  if req.VolumeId = "" then
    (.error ⟨.InvalidArgument, "volume ID is required", none⟩, os)
  else
    let volumePath := Join [d.basePath, req.VolumeId]
    match os.removeAll volumePath with
    | (some err, os1) =>
      (.error ⟨.Internal, "failed to delete volume directory", some err⟩, os1)
    | (none, os1) => (.ok (), os1)

/-- Go `(*Driver).ListVolumes`. Every entry of the model is a directory and its
`Info` is always available; `size` is the size the file system reports for an entry. -/
def ListVolumes (d : Driver) (os : OS) (size : String → Int) :
    Except Status csi.ListVolumesResponse × OS :=
  match os.readDir d.basePath with
  | (.error err, os1) => (.error ⟨.Internal, "failed to list volumes", some err⟩, os1)
  | (.ok files, os1) =>
    (.ok { Entries := files.map (fun file =>
        { Volume := { VolumeId := file, CapacityBytes := size file, VolumeContext := [] } }) },
      os1)

/-- Go `(*Driver).NodePublishVolume`. -/
def NodePublishVolume (d : Driver) (os : OS) (req : NodePublishVolumeRequest) :
    Except Status Unit × OS :=
  if req.VolumeId = "" then
    (.error ⟨.InvalidArgument, "volume ID is required", none⟩, os)
  else if req.TargetPath = "" then
    (.error ⟨.InvalidArgument, "target path is required", none⟩, os)
  else
    let volumePath := Join [d.basePath, req.VolumeId]
    match os.stat volumePath with
    | (false, os1) => (.error ⟨.NotFound, "volume not found", none⟩, os1)
    | (true, os1) =>
      match os1.mkdirAll req.TargetPath with
      | (some err, os2) =>
        (.error ⟨.Internal, "failed to create target directory", some err⟩, os2)
      | (none, os2) =>
        match os2.mount volumePath req.TargetPath with
        | (some err, os3) => (.error ⟨.Internal, "failed to mount volume", some err⟩, os3)
        | (none, os3) => (.ok (), os3)

end Driver

/-! ## Concrete systems used as examples -/

/-- A system with an empty directory tree and no mounts. -/
def emptyFS : FS := { cwd := [], dirs := [], mounts := [], denied := [] }

/-- A manager with an empty registry over the base directory of `cmd/csi-driver`. -/
def startWorld : World :=
  { mgr := { baseDir := "/var/lib/ephemeral-csi", volumes := ∅ },
    fs := (MkdirAll emptyFS "/var/lib/ephemeral-csi").2 }

/-- The system after `CreateVolume("v1", 2 GiB)`. -/
def oneVolume : World :=
  (VolumeManager.CreateVolume startWorld ⟨"v1", some ⟨2 ^ 31, 0⟩, []⟩).2

/-- As `oneVolume`, with the kernel refusing every change at the directories of `v1`
and `v2`. -/
def lockedVolume : World :=
  { oneVolume with
    fs := { oneVolume.fs with
      denied := [["var", "lib", "ephemeral-csi", "vol-v1"],
        ["var", "lib", "ephemeral-csi", "vol-v2"]] } }

/-- The system after `v1` was published at `/mnt/a`. -/
def publishedOnce : World :=
  (NodeMounter.NodePublishVolume oneVolume ⟨"vol-v1", "/mnt/a", []⟩).2

/-- The system after `v1` was published at `/mnt/a` and then at `/mnt/b`. -/
def publishedTwice : World :=
  (NodeMounter.NodePublishVolume publishedOnce ⟨"vol-v1", "/mnt/b", []⟩).2

/-- The system after `CreateVolume("a")`, `CreateVolume("a/b")` and
`DeleteVolume("vol-a")` on the fresh manager. -/
def nestedDeleted : Except Error Unit × World :=
  VolumeManager.DeleteVolume
    (VolumeManager.CreateVolume
      (VolumeManager.CreateVolume startWorld ⟨"a", none, []⟩).2 ⟨"a/b", none, []⟩).2
    "vol-a"

/-- A system without calls so far, on the empty directory tree. -/
def emptyOS : OS := { fs := emptyFS, calls := [] }

/-- The driver of `cmd/driver` on node `node-1`. -/
def exampleDriver : Driver :=
  { name := "ephemeral.csi.local", version := "0.1.0", nodeID := "node-1",
    basePath := "/var/lib/ephemeral-csi" }

/-- The system after `NewDriver`: the base directory exists and is empty. -/
def driverStart : OS := (NewDriver emptyOS "node-1" "/var/lib/ephemeral-csi").2

/-- The size reported for every directory in the examples. -/
def exampleSize : String → Int := fun _ => 4096

/-- The system after `Driver.CreateVolume("a/b")` on the empty base directory. -/
def driverNested : Except Status csi.CreateVolumeResponse × OS :=
  Driver.CreateVolume exampleDriver driverStart ⟨"a/b", none, []⟩

/-- The manager after `CreateVolume("../../../etc")` on the fresh manager. -/
def escapedCreate : Except Error Volume × World :=
  VolumeManager.CreateVolume startWorld ⟨"../../../etc", none, []⟩

/-- The manager after `CreateVolume("../../..")` and `DeleteVolume("vol-../../..")` on
the fresh manager. -/
def escapedDelete : Except Error Unit × World :=
  VolumeManager.DeleteVolume
    (VolumeManager.CreateVolume startWorld ⟨"../../..", none, []⟩).2 "vol-../../.."

/-! ## Facts about the operating-system model -/

theorem prune_hasDir_of (fs : FS) (l k : Loc) (h : (fs.prune l).hasDir k = true) :
    fs.hasDir k = true := by
  simp only [FS.hasDir, FS.prune, Bool.or_eq_true, decide_eq_true_eq, List.mem_filter] at h ⊢
  exact h.imp id (fun x => x.1)

theorem RemoveAll_cwd (fs : FS) (path : String) : (RemoveAll fs path).2.cwd = fs.cwd := by
  unfold RemoveAll
  split_ifs <;> rfl

theorem RemoveAll_hasDir_of (fs : FS) (path : String) (l : Loc)
    (h : (RemoveAll fs path).2.hasDir l = true) : fs.hasDir l = true := by
  unfold RemoveAll at h
  split_ifs at h
  all_goals first
    | exact h
    | exact prune_hasDir_of _ _ _ h

theorem RemoveAll_ok_not_isDir (fs fs1 : FS) (path : String)
    (h : RemoveAll fs path = (none, fs1)) : fs1.isDir path = false := by
  unfold RemoveAll at h
  by_cases hp : path = ""
  · simp [FS.isDir, hp]
  · rw [if_neg hp] at h
    by_cases hdot : endsWithDot path = true
    · rw [if_pos hdot] at h
      simp at h
    · rw [if_neg hdot] at h
      by_cases hdir : (fs.prune (fs.locate path)).hasDir (fs.locate path) = true
      · rw [if_pos hdir] at h
        simp at h
      · rw [if_neg hdir] at h
        simp only [Prod.mk.injEq, true_and] at h
        subst h
        simp only [FS.isDir, Bool.and_eq_false_iff]
        right
        simpa [FS.locate, FS.prune] using hdir

theorem RemoveAll_isDir_of (fs fs1 : FS) (path p : String) (e : Option OSError)
    (h : RemoveAll fs path = (e, fs1)) (hd : fs1.isDir p = true) : fs.isDir p = true := by
  have hcwd : fs1.cwd = fs.cwd := by
    have := RemoveAll_cwd fs path
    rw [h] at this
    exact this
  simp only [FS.isDir, Bool.and_eq_true, decide_eq_true_eq, FS.locate, hcwd] at hd ⊢
  refine ⟨hd.1, RemoveAll_hasDir_of fs path _ ?_⟩
  rw [h]
  exact hd.2

theorem mkdirFrom_ok_hasDir (todo : List String) :
    ∀ (fs fs1 : FS) (done : Loc), mkdirFrom fs done todo = (none, fs1) →
      fs.hasDir done = true → fs1.hasDir (done ++ todo) = true := by
  induction todo with
  | nil =>
    intro fs fs1 done h hd
    simp only [mkdirFrom, Prod.mk.injEq, true_and] at h
    subst h
    simpa using hd
  | cons e rest ih =>
    intro fs fs1 done h hd
    rw [mkdirFrom] at h
    have happ : done ++ e :: rest = (done ++ [e]) ++ rest := by simp
    rw [happ]
    by_cases h1 : fs.hasDir (done ++ [e]) = true
    · rw [if_pos h1] at h
      exact ih fs fs1 (done ++ [e]) h h1
    · rw [if_neg h1] at h
      by_cases h2 : (done ++ [e]) ∈ fs.denied
      · rw [if_pos h2] at h
        simp at h
      · rw [if_neg h2] at h
        refine ih _ fs1 (done ++ [e]) h ?_
        simp [FS.hasDir]

theorem mkdirFrom_cwd (todo : List String) :
    ∀ (fs : FS) (done : Loc), (mkdirFrom fs done todo).2.cwd = fs.cwd := by
  induction todo with
  | nil => intro fs done; rfl
  | cons e rest ih =>
    intro fs done
    rw [mkdirFrom]
    split_ifs
    · exact ih fs _
    · rfl
    · exact ih _ _

theorem MkdirAll_ok_isDir (fs fs1 : FS) (path : String) (h : MkdirAll fs path = (none, fs1)) :
    fs1.isDir path = true := by
  unfold MkdirAll at h
  by_cases hp : path = ""
  · rw [if_pos hp] at h
    simp at h
  · rw [if_neg hp] at h
    simp only [FS.isDir, Bool.and_eq_true, decide_eq_true_eq]
    refine ⟨hp, ?_⟩
    by_cases hd : fs.hasDir (fs.locate path) = true
    · rw [if_pos hd] at h
      simp only [Prod.mk.injEq, true_and] at h
      subst h
      exact hd
    · rw [if_neg hd] at h
      have hcwd : fs1.cwd = fs.cwd := by
        have := mkdirFrom_cwd (fs.locate path) fs []
        rw [h] at this
        exact this
      have := mkdirFrom_ok_hasDir (fs.locate path) fs fs1 [] h rfl
      simpa [FS.locate, hcwd] using this

theorem MkdirAll_of_isDir (fs : FS) (path : String) (h : fs.isDir path = true) :
    MkdirAll fs path = (none, fs) := by
  simp only [FS.isDir, Bool.and_eq_true, decide_eq_true_eq] at h
  unfold MkdirAll
  rw [if_neg h.1, if_pos h.2]

/-! ## Facts about paths and locations -/

theorem Clean_ne_empty (p : String) : Clean p ≠ "" := by
  unfold Clean
  by_cases hp : p = ""
  · rw [if_pos hp]; decide
  · rw [if_neg hp]
    simp only
    split_ifs with h1 h2
    · intro h
      have := congrArg String.length h
      simp only [String.length_append] at this
      have h2 : ("/" : String).length = 1 := by decide
      have h3 : ("" : String).length = 0 := by decide
      omega
    · decide
    · exact h2

theorem Join_pair_ne_empty (a b : String) (hb : b ≠ "") : Join [a, b] ≠ "" := by
  unfold Join
  by_cases ha : a = ""
  · simp [List.dropWhile, ha, hb, Clean_ne_empty]
  · simp [List.dropWhile, ha, Clean_ne_empty]

theorem RemoveAll_of_missing (fs : FS) (path : String) (hdir : fs.isDir path = false)
    (hdot : endsWithDot path = false) : (RemoveAll fs path).1 = none := by
  unfold RemoveAll
  by_cases hp : path = ""
  · rw [if_pos hp]
  · rw [if_neg hp, if_neg (by simp [hdot])]
    by_cases hd : (fs.prune (fs.locate path)).hasDir (fs.locate path) = true
    · have := prune_hasDir_of _ _ _ hd
      simp [FS.isDir, hp, this] at hdir
    · rw [if_neg hd]

theorem beneath_iff_isPrefix (a : Loc) : ∀ b : Loc, beneath a b = true ↔ a <+: b := by
  induction a with
  | nil => intro b; simp [beneath]
  | cons x xs ih =>
    intro b
    cases b with
    | nil => simp [beneath]
    | cons y ys =>
      simp only [beneath, Bool.and_eq_true, decide_eq_true_eq, ih ys]
      constructor
      · rintro ⟨rfl, h⟩
        exact (List.prefix_cons_inj x).mpr h
      · intro h
        obtain ⟨hxy, h1⟩ := List.cons_prefix_cons.mp h
        exact ⟨hxy, h1⟩

theorem beneath_trans (a b c : Loc) (h1 : beneath a b = true) (h2 : beneath b c = true) :
    beneath a c = true :=
  (beneath_iff_isPrefix a c).mpr
    (List.IsPrefix.trans ((beneath_iff_isPrefix a b).mp h1) ((beneath_iff_isPrefix b c).mp h2))

theorem closed_hasDir (fs : FS) (hc : fs.closed = true) (d p : Loc) (hd : d ∈ fs.dirs)
    (hp : beneath p d = true) : fs.hasDir p = true := by
  simp only [FS.closed, List.all_eq_true] at hc
  exact hc d hd p ((List.mem_inits p d).mpr ((beneath_iff_isPrefix p d).mp hp))

/-- After a successful `RemoveAll` on a tree closed under parents, nothing exists at or
beneath the removed location. -/
theorem RemoveAll_ok_beneath (fs fs1 : FS) (path : String) (hpath : path ≠ "")
    (hc : fs.closed = true) (h : RemoveAll fs path = (none, fs1)) (k : Loc)
    (hk : beneath (fs.locate path) k = true) : fs1.hasDir k = false := by
  unfold RemoveAll at h
  rw [if_neg hpath] at h
  by_cases hdot : endsWithDot path = true
  · rw [if_pos hdot] at h
    simp at h
  · rw [if_neg hdot] at h
    by_cases hdir : (fs.prune (fs.locate path)).hasDir (fs.locate path) = true
    · rw [if_pos hdir] at h
      simp at h
    · rw [if_neg hdir] at h
      simp only [Prod.mk.injEq, true_and] at h
      subst h
      cases hres : (fs.prune (fs.locate path)).hasDir k with
      | false => rfl
      | true =>
        exfalso
        apply hdir
        have hroot : fs.locate path ≠ [] := by
          intro h0
          apply hdir
          simp [FS.hasDir, h0]
        simp only [FS.hasDir, FS.prune, Bool.or_eq_true, decide_eq_true_eq, List.mem_filter,
          Bool.not_eq_true', hroot, false_or] at hres ⊢
        rcases hres with h0 | ⟨hmem, hkeep⟩
        · subst h0
          have : fs.locate path <+: [] := (beneath_iff_isPrefix _ _).mp hk
          exact absurd (List.prefix_nil.mp this) hroot
        · rcases hkeep with hnot | hpin
          · rw [hk] at hnot
            exact absurd hnot (by decide)
          · have hloc := closed_hasDir fs hc k (fs.locate path) hmem hk
            simp only [FS.hasDir, Bool.or_eq_true, decide_eq_true_eq, hroot, false_or] at hloc
            refine ⟨hloc, Or.inr ?_⟩
            simp only [FS.pinned, List.any_eq_true, Bool.and_eq_true, decide_eq_true_eq] at hpin ⊢
            obtain ⟨d1, hd1, hb, hden⟩ := hpin
            exact ⟨d1, hd1, beneath_trans _ _ _ hk hb, hden⟩

theorem closed_iff (fs : FS) :
    fs.closed = true ↔ ∀ d ∈ fs.dirs, ∀ p : Loc, p <+: d → fs.hasDir p = true := by
  simp only [FS.closed, List.all_eq_true, List.mem_inits]

theorem closed_emptyFS : emptyFS.closed = true := by decide

theorem mkdirFrom_closed (todo : List String) :
    ∀ (fs : FS) (done : Loc), fs.closed = true → fs.hasDir done = true →
      (mkdirFrom fs done todo).2.closed = true := by
  induction todo with
  | nil => intro fs done hc _; exact hc
  | cons e rest ih =>
    intro fs done hc hd
    rw [mkdirFrom]
    by_cases h1 : fs.hasDir (done ++ [e]) = true
    · rw [if_pos h1]
      exact ih fs _ hc h1
    · rw [if_neg h1]
      by_cases h2 : (done ++ [e]) ∈ fs.denied
      · rw [if_pos h2]
        exact hc
      · rw [if_neg h2]
        refine ih _ _ ?_ (by simp [FS.hasDir])
        rw [closed_iff] at hc ⊢
        intro d hmem p hp
        have hmono : ∀ q, fs.hasDir q = true →
            ({ fs with dirs := (done ++ [e]) :: fs.dirs } : FS).hasDir q = true := by
          intro q hq
          simp only [FS.hasDir, Bool.or_eq_true, decide_eq_true_eq, List.mem_cons] at hq ⊢
          exact hq.imp id Or.inr
        simp only [List.mem_cons] at hmem
        rcases hmem with rfl | hmem
        · rcases List.prefix_concat_iff.mp hp with rfl | hp1
          · simp [FS.hasDir]
          · apply hmono
            simp only [FS.hasDir, Bool.or_eq_true, decide_eq_true_eq] at hd
            rcases hd with rfl | hd
            · simp [List.prefix_nil.mp hp1, FS.hasDir]
            · exact hc done hd p hp1
        · exact hmono p (hc d hmem p hp)

theorem MkdirAll_closed (fs : FS) (path : String) (hc : fs.closed = true) :
    (MkdirAll fs path).2.closed = true := by
  unfold MkdirAll
  split_ifs
  · exact hc
  · exact hc
  · exact mkdirFrom_closed _ fs [] hc rfl

theorem prune_closed (fs : FS) (l : Loc) (hc : fs.closed = true) :
    (fs.prune l).closed = true := by
  rw [closed_iff] at hc ⊢
  intro d hmem p hp
  simp only [FS.prune, List.mem_filter, Bool.or_eq_true, Bool.not_eq_true'] at hmem
  obtain ⟨hd, hkeep⟩ := hmem
  have hpd := hc d hd p hp
  simp only [FS.hasDir, FS.prune, Bool.or_eq_true, decide_eq_true_eq, List.mem_filter,
    Bool.not_eq_true'] at hpd ⊢
  rcases hpd with h0 | hpmem
  · exact Or.inl h0
  · refine Or.inr ⟨hpmem, ?_⟩
    cases hb : beneath l p with
    | false => exact Or.inl rfl
    | true =>
      right
      have hld : beneath l d = true :=
        beneath_trans l p d hb ((beneath_iff_isPrefix p d).mpr hp)
      rcases hkeep with hnot | hpin
      · rw [hld] at hnot
        exact absurd hnot (by decide)
      · simp only [FS.pinned, List.any_eq_true, Bool.and_eq_true, decide_eq_true_eq] at hpin ⊢
        obtain ⟨d1, hd1, hb1, hden⟩ := hpin
        exact ⟨d1, hd1, beneath_trans p d d1 ((beneath_iff_isPrefix p d).mpr hp) hb1, hden⟩

theorem RemoveAll_closed (fs : FS) (path : String) (hc : fs.closed = true) :
    (RemoveAll fs path).2.closed = true := by
  unfold RemoveAll
  split_ifs
  all_goals first
    | exact hc
    | exact prune_closed fs _ hc

/-! ## The methods unfolded on the outcome of their operating-system calls -/

theorem CreateVolume_of_mkdir_ok (w : World) (req : CreateVolumeRequest) (fs1 : FS)
    (h : MkdirAll w.fs (Join [w.mgr.baseDir, generateVolumeID req.Name]) = (none, fs1)) :
    VolumeManager.CreateVolume w req =
      (.ok (freshVolume w.mgr.baseDir req),
        { mgr := { w.mgr with
            volumes := w.mgr.volumes.insert (generateVolumeID req.Name)
              (freshVolume w.mgr.baseDir req) },
          fs := fs1 }) := by
  simp only [VolumeManager.CreateVolume, h, freshVolume]

theorem CreateVolume_of_mkdir_error (w : World) (req : CreateVolumeRequest) (fs1 : FS)
    (err : OSError)
    (h : MkdirAll w.fs (Join [w.mgr.baseDir, generateVolumeID req.Name]) = (some err, fs1)) :
    VolumeManager.CreateVolume w req =
      (.error (.createVolumeDirectory err), { w with fs := fs1 }) := by
  simp only [VolumeManager.CreateVolume, h]

theorem DeleteVolume_of_missing (w : World) (volumeID : String)
    (h : w.mgr.volumes.lookup volumeID = none) :
    VolumeManager.DeleteVolume w volumeID = (.error (.volumeNotFound volumeID), w) := by
  simp only [VolumeManager.DeleteVolume, h]

theorem DeleteVolume_of_remove_ok (w : World) (volumeID : String) (volume : Volume) (fs1 : FS)
    (h : w.mgr.volumes.lookup volumeID = some volume)
    (hr : RemoveAll w.fs volume.Path = (none, fs1)) :
    VolumeManager.DeleteVolume w volumeID =
      (.ok (), { mgr := { w.mgr with volumes := w.mgr.volumes.erase volumeID }, fs := fs1 }) := by
  simp only [VolumeManager.DeleteVolume, h, hr]

theorem DeleteVolume_of_remove_error (w : World) (volumeID : String) (volume : Volume)
    (fs1 : FS) (err : OSError)
    (h : w.mgr.volumes.lookup volumeID = some volume)
    (hr : RemoveAll w.fs volume.Path = (some err, fs1)) :
    VolumeManager.DeleteVolume w volumeID =
      (.error (.deleteVolumeDirectory err), { w with fs := fs1 }) := by
  simp only [VolumeManager.DeleteVolume, h, hr]

theorem NodePublishVolume_of_ok (w : World) (req : NodePublishVolumeRequest)
    (volume : Volume) (fs1 fs2 : FS)
    (hreg : w.mgr.volumes.lookup req.VolumeId = some volume)
    (hsub : index req.VolumeContext "subPath" = "")
    (hm : MkdirAll w.fs req.TargetPath = (none, fs1))
    (hb : mountBind fs1 volume.Path req.TargetPath = (none, fs2)) :
    NodeMounter.NodePublishVolume w req =
      (.ok (), NodeMounter.setMountPoint w fs2 req.VolumeId volume req.TargetPath) := by
  simp [NodeMounter.NodePublishVolume, VolumeManager.GetVolume, hreg, hsub, hm, bindMount, hb]

theorem NodeUnpublishVolume_of_ok (w : World) (req : NodeUnpublishVolumeRequest)
    (volume : Volume) (fs1 fs2 : FS)
    (hreg : w.mgr.volumes.lookup req.VolumeId = some volume)
    (hu : Unmount w.fs req.TargetPath = (none, fs1))
    (hr : RemoveAll fs1 req.TargetPath = (none, fs2)) :
    NodeMounter.NodeUnpublishVolume w req =
      (.ok (), NodeMounter.setMountPoint w fs2 req.VolumeId volume "") := by
  simp only [NodeMounter.NodeUnpublishVolume, VolumeManager.GetVolume, hreg, hu, hr]

/-! ## Repeated creation -/

/-- C1, as stated, fails: `v1` is registered with 2 GiB and mount point `/mnt/a`; a second
`CreateVolume` with the very same request returns a volume without the mount point
and overwrites the registry entry, and a second `CreateVolume` for the same name with
another capacity returns the other capacity. -/
theorem CreateVolume_replay_counterexample :
    publishedOnce.mgr.volumes.lookup "vol-v1" =
      some { freshVolume "/var/lib/ephemeral-csi" ⟨"v1", some ⟨2 ^ 31, 0⟩, []⟩ with
        MountPoint := "/mnt/a" } ∧
    (VolumeManager.CreateVolume publishedOnce ⟨"v1", some ⟨2 ^ 31, 0⟩, []⟩).1 =
      .ok (freshVolume "/var/lib/ephemeral-csi" ⟨"v1", some ⟨2 ^ 31, 0⟩, []⟩) ∧
    (VolumeManager.CreateVolume publishedOnce ⟨"v1", some ⟨2 ^ 31, 0⟩, []⟩).2.mgr.volumes.lookup
        "vol-v1" ≠ publishedOnce.mgr.volumes.lookup "vol-v1" ∧
    (VolumeManager.CreateVolume publishedOnce ⟨"v1", some ⟨5, 0⟩, []⟩).1.toOption.map Volume.Size =
      some 5 ∧
    (publishedOnce.mgr.volumes.lookup "vol-v1").map Volume.Size = some (2 ^ 31) := by
  refine ⟨by decide, rfl, by decide, by decide, by decide⟩

/-- C1, amended: when the derived id is already registered, a successful `CreateVolume`
returns the volume built from the present request (empty mount point), binds the id to
it and leaves every other entry and the number of entries as they were; its directory
exists, and repeating the same request returns the same volume and changes nothing. -/
theorem CreateVolume_replay (w w1 : World) (req : CreateVolumeRequest) (vol old : Volume)
    (hold : w.mgr.volumes.lookup (generateVolumeID req.Name) = some old)
    (h : VolumeManager.CreateVolume w req = (.ok vol, w1)) :
    vol = freshVolume w.mgr.baseDir req ∧
    w1.mgr.volumes.lookup (generateVolumeID req.Name) = some vol ∧
    (∀ id, id ≠ generateVolumeID req.Name →
      w1.mgr.volumes.lookup id = w.mgr.volumes.lookup id) ∧
    w1.mgr.volumes.keys.length = w.mgr.volumes.keys.length ∧
    w1.mgr.volumes.keys.count (generateVolumeID req.Name) = 1 ∧
    w1.fs.isDir vol.Path = true ∧
    VolumeManager.CreateVolume w1 req = (.ok vol, w1) := by
  rcases hm : MkdirAll w.fs (Join [w.mgr.baseDir, generateVolumeID req.Name]) with ⟨_ | err, fs1⟩
  · rw [CreateVolume_of_mkdir_ok w req fs1 hm] at h
    simp only [Prod.mk.injEq, Except.ok.injEq] at h
    obtain ⟨hv, hw⟩ := h
    subst hv hw
    have hdir := MkdirAll_ok_isDir _ _ _ hm
    have hmem : generateVolumeID req.Name ∈ w.mgr.volumes.keys := by
      have : generateVolumeID req.Name ∈ w.mgr.volumes :=
        AList.lookup_isSome.mp (by rw [hold]; rfl)
      exact this
    refine ⟨rfl, AList.lookup_insert _, fun id hid => AList.lookup_insert_ne hid, ?_, ?_,
      hdir, ?_⟩
    · simp only [AList.keys_insert, List.length_cons]
      rw [List.length_erase_of_mem hmem]
      have : 0 < w.mgr.volumes.keys.length := List.length_pos_of_mem hmem
      omega
    · exact List.count_eq_one_of_mem (AList.keys_nodup _) (by simp [AList.keys_insert])
    · rw [CreateVolume_of_mkdir_ok _ req fs1 (MkdirAll_of_isDir _ _ hdir)]
      simp only [AList.insert_insert]
  · rw [CreateVolume_of_mkdir_error w req fs1 err hm] at h
    simp at h

/-- Witness for C1 (amended): `v1`, registered and published at `/mnt/a`, is created
again. -/
theorem CreateVolume_replay_witness :
    (VolumeManager.CreateVolume publishedOnce ⟨"v1", some ⟨2 ^ 31, 0⟩, []⟩).2.mgr.volumes.lookup
        "vol-v1" =
      some (freshVolume "/var/lib/ephemeral-csi" ⟨"v1", some ⟨2 ^ 31, 0⟩, []⟩) :=
  (CreateVolume_replay publishedOnce _ ⟨"v1", some ⟨2 ^ 31, 0⟩, []⟩
    (freshVolume "/var/lib/ephemeral-csi" ⟨"v1", some ⟨2 ^ 31, 0⟩, []⟩)
    { freshVolume "/var/lib/ephemeral-csi" ⟨"v1", some ⟨2 ^ 31, 0⟩, []⟩ with
        MountPoint := "/mnt/a" } (by decide) rfl).2.1

/-! ## Failed calls and the registry -/

/-- C2: a `CreateVolume` or `DeleteVolume` call that returns an error (the directory could
not be created, could not be removed, or the id is unknown) leaves the registry exactly
as it was: every id is bound after the call to what it was bound to before. -/
theorem failed_call_keeps_registry (w w1 : World) (err : Error)
    (h : (∃ req, VolumeManager.CreateVolume w req = (.error err, w1)) ∨
      (∃ volumeID, VolumeManager.DeleteVolume w volumeID = (.error err, w1))) :
    w1.mgr = w.mgr ∧ ∀ id, w1.mgr.volumes.lookup id = w.mgr.volumes.lookup id := by
  suffices hm : w1.mgr = w.mgr from ⟨hm, fun id => by rw [hm]⟩
  rcases h with ⟨req, h⟩ | ⟨volumeID, h⟩
  · rcases hm : MkdirAll w.fs (Join [w.mgr.baseDir, generateVolumeID req.Name])
      with ⟨_ | e, fs1⟩
    · rw [CreateVolume_of_mkdir_ok w req fs1 hm] at h
      simp at h
    · rw [CreateVolume_of_mkdir_error w req fs1 e hm] at h
      simp only [Prod.mk.injEq] at h
      obtain ⟨-, hw⟩ := h
      subst hw
      rfl
  · rcases hl : w.mgr.volumes.lookup volumeID with _ | volume
    · rw [DeleteVolume_of_missing w volumeID hl] at h
      simp only [Prod.mk.injEq] at h
      obtain ⟨-, hw⟩ := h
      subst hw
      rfl
    · rcases hr : RemoveAll w.fs volume.Path with ⟨_ | e, fs1⟩
      · rw [DeleteVolume_of_remove_ok w volumeID volume fs1 hl hr] at h
        simp at h
      · rw [DeleteVolume_of_remove_error w volumeID volume fs1 e hl hr] at h
        simp only [Prod.mk.injEq] at h
        obtain ⟨-, hw⟩ := h
        subst hw
        rfl

/-- Witness for C2: the directory of the registered volume cannot be removed and the
directory of a second volume `v2` cannot be created; both calls fail, and `v1` stays
registered. -/
theorem failed_call_keeps_registry_witness :
    (VolumeManager.DeleteVolume lockedVolume "vol-v1").2.mgr = lockedVolume.mgr ∧
    (VolumeManager.CreateVolume lockedVolume ⟨"v2", none, []⟩).2.mgr = lockedVolume.mgr :=
  ⟨(failed_call_keeps_registry lockedVolume _ (.deleteVolumeDirectory .EACCES)
      (Or.inr ⟨"vol-v1", rfl⟩)).1,
    (failed_call_keeps_registry lockedVolume _ (.createVolumeDirectory .EACCES)
      (Or.inl ⟨⟨"v2", none, []⟩, rfl⟩)).1⟩

/-! ## Deleting an unknown id -/

/-- C3: deleting an id that is not in the registry reports that the volume was not
found and leaves registry and file system exactly as they were. -/
theorem DeleteVolume_unknown_id (w : World) (volumeID : String)
    (h : w.mgr.volumes.lookup volumeID = none) :
    (VolumeManager.DeleteVolume w volumeID).1 = .error (.volumeNotFound volumeID) ∧
    (VolumeManager.DeleteVolume w volumeID).2 = w ∧
    (VolumeManager.DeleteVolume w volumeID).2.fs = w.fs := by
  rw [DeleteVolume_of_missing w volumeID h]
  exact ⟨rfl, rfl, rfl⟩

/-- Witness for C3: an id that was never created, on a system holding one volume. -/
theorem DeleteVolume_unknown_id_witness :
    (VolumeManager.DeleteVolume oneVolume "vol-v2").1 = .error (.volumeNotFound "vol-v2") ∧
    (VolumeManager.DeleteVolume oneVolume "vol-v2").2 = oneVolume ∧
    (VolumeManager.DeleteVolume oneVolume "vol-v2").2.fs = oneVolume.fs :=
  DeleteVolume_unknown_id oneVolume "vol-v2" (by decide)

/-! ## Deletion followed by look-up -/

/-- C4: after a successful `DeleteVolume` of a registered volume, `GetVolume` reports
that the volume was not found and no directory exists at the recorded path. -/
theorem DeleteVolume_then_GetVolume (w w1 : World) (volumeID : String) (volume : Volume)
    (hreg : w.mgr.volumes.lookup volumeID = some volume)
    (h : VolumeManager.DeleteVolume w volumeID = (.ok (), w1)) :
    VolumeManager.GetVolume w1 volumeID = .error (.volumeNotFound volumeID) ∧
    w1.fs.isDir volume.Path = false := by
  rcases hr : RemoveAll w.fs volume.Path with ⟨_ | e, fs1⟩
  · rw [DeleteVolume_of_remove_ok w volumeID volume fs1 hreg hr] at h
    simp only [Prod.mk.injEq, true_and] at h
    subst h
    refine ⟨?_, RemoveAll_ok_not_isDir _ _ _ hr⟩
    simp [VolumeManager.GetVolume, AList.lookup_erase]
  · rw [DeleteVolume_of_remove_error w volumeID volume fs1 e hreg hr] at h
    simp at h

/-- Witness for C4: the volume created on the empty system is deleted. -/
theorem DeleteVolume_then_GetVolume_witness :
    VolumeManager.GetVolume (VolumeManager.DeleteVolume oneVolume "vol-v1").2 "vol-v1" =
      .error (.volumeNotFound "vol-v1") ∧
    (VolumeManager.DeleteVolume oneVolume "vol-v1").2.fs.isDir
      "/var/lib/ephemeral-csi/vol-v1" = false :=
  DeleteVolume_then_GetVolume oneVolume _ "vol-v1"
    (freshVolume "/var/lib/ephemeral-csi" ⟨"v1", some ⟨2 ^ 31, 0⟩, []⟩) (by decide) rfl

/-! ## Size of a created volume -/

/-- C5: an accepted creation request yields a volume of 1 GiB when the required capacity
is absent, zero or negative, and of exactly the required number of bytes when that
number is positive. -/
theorem CreateVolume_size (w w1 : World) (req : CreateVolumeRequest) (vol : Volume)
    (h : VolumeManager.CreateVolume w req = (.ok vol, w1)) :
    (req.CapacityRange = none → vol.Size = 2 ^ 30) ∧
    (∀ r, req.CapacityRange = some r → r.RequiredBytes ≤ 0 → vol.Size = 2 ^ 30) ∧
    (∀ r, req.CapacityRange = some r → 0 < r.RequiredBytes → vol.Size = r.RequiredBytes) := by
  rcases hm : MkdirAll w.fs (Join [w.mgr.baseDir, generateVolumeID req.Name]) with ⟨_ | err, fs1⟩
  · rw [CreateVolume_of_mkdir_ok w req fs1 hm] at h
    simp only [Prod.mk.injEq, Except.ok.injEq] at h
    obtain ⟨hv, -⟩ := h
    subst hv
    refine ⟨fun hn => ?_, fun r hr hle => ?_, fun r hr hpos => ?_⟩
    · simp [freshVolume, hn, GetRequiredBytes, parseSize]
    · simp [freshVolume, hr, GetRequiredBytes, parseSize, hle]
    · simp [freshVolume, hr, GetRequiredBytes, parseSize, not_le.mpr hpos]
  · rw [CreateVolume_of_mkdir_error w req fs1 err hm] at h
    simp at h

/-- Witness for C5: a request for 2 GiB accepted on an empty system. -/
theorem CreateVolume_size_witness :
    (VolumeManager.CreateVolume ⟨⟨"/var/lib/ephemeral-csi", ∅⟩, ⟨[], [], [], []⟩⟩
        ⟨"v1", some ⟨2 ^ 31, 0⟩, []⟩).1 =
      .ok (freshVolume "/var/lib/ephemeral-csi" ⟨"v1", some ⟨2 ^ 31, 0⟩, []⟩) ∧
    (freshVolume "/var/lib/ephemeral-csi" ⟨"v1", some ⟨2 ^ 31, 0⟩, []⟩).Size = 2 ^ 31 :=
  ⟨rfl, (CreateVolume_size ⟨⟨"/var/lib/ephemeral-csi", ∅⟩, ⟨[], [], [], []⟩⟩ _
      ⟨"v1", some ⟨2 ^ 31, 0⟩, []⟩ _ rfl).2.2 ⟨2 ^ 31, 0⟩ rfl (by decide)⟩

/-! ## The life cycle of a volume -/

/-- C6: on a fresh manager, when every file-system step succeeds, creating a volume,
publishing it at a target path, unpublishing it there and deleting it all succeed;
afterwards neither the target path nor the volume directory exists and `ListVolumes`
is empty. This holds for every name, capacity and target path. -/
theorem lifecycle_succeeds (fs fs0 fs1 fs2 fs3 fs4 fs5 fs6 : FS) (m : VolumeManager)
    (baseDir name target : String) (capacity : Option CapacityRange)
    (parameters context : List (String × String))
    (hnew : NewVolumeManager fs baseDir = (.ok m, fs0))
    (hsub : index context "subPath" = "")
    (h1 : MkdirAll fs0 (Join [baseDir, generateVolumeID name]) = (none, fs1))
    (h2 : MkdirAll fs1 target = (none, fs2))
    (h3 : mountBind fs2 (Join [baseDir, generateVolumeID name]) target = (none, fs3))
    (h4 : Unmount fs3 target = (none, fs4))
    (h5 : RemoveAll fs4 target = (none, fs5))
    (h6 : RemoveAll fs5 (Join [baseDir, generateVolumeID name]) = (none, fs6)) :
    ∃ (vol : Volume) (w1 w2 w3 w4 : World),
      VolumeManager.CreateVolume ⟨m, fs0⟩ ⟨name, capacity, parameters⟩ = (.ok vol, w1) ∧
      vol.ID = generateVolumeID name ∧
      NodeMounter.NodePublishVolume w1 ⟨vol.ID, target, context⟩ = (.ok (), w2) ∧
      NodeMounter.NodeUnpublishVolume w2 ⟨vol.ID, target⟩ = (.ok (), w3) ∧
      VolumeManager.DeleteVolume w3 vol.ID = (.ok (), w4) ∧
      w4.fs.isDir target = false ∧
      w4.fs.isDir vol.Path = false ∧
      VolumeManager.ListVolumes w4 = [] := by
  have hm : m = { baseDir := baseDir, volumes := ∅ } := by
    unfold NewVolumeManager at hnew
    rcases hb : MkdirAll fs baseDir with ⟨_ | e, fsb⟩
    · rw [hb] at hnew
      simp only [Prod.mk.injEq, Except.ok.injEq] at hnew
      exact hnew.1.symm
    · rw [hb] at hnew
      simp at hnew
  subst hm
  have hc := CreateVolume_of_mkdir_ok ⟨⟨baseDir, ∅⟩, fs0⟩ ⟨name, capacity, parameters⟩ fs1 h1
  have hp := NodePublishVolume_of_ok
    ⟨⟨baseDir, (∅ : AList (fun _ : String => Volume)).insert (generateVolumeID name)
      (freshVolume baseDir ⟨name, capacity, parameters⟩)⟩, fs1⟩
    ⟨generateVolumeID name, target, context⟩ (freshVolume baseDir ⟨name, capacity, parameters⟩)
    fs2 fs3 (AList.lookup_insert _) hsub h2 h3
  have hu := NodeUnpublishVolume_of_ok
    (NodeMounter.setMountPoint
      ⟨⟨baseDir, (∅ : AList (fun _ : String => Volume)).insert (generateVolumeID name)
        (freshVolume baseDir ⟨name, capacity, parameters⟩)⟩, fs1⟩ fs3 (generateVolumeID name)
      (freshVolume baseDir ⟨name, capacity, parameters⟩) target)
    ⟨generateVolumeID name, target⟩
    { freshVolume baseDir ⟨name, capacity, parameters⟩ with MountPoint := target }
    fs4 fs5 (AList.lookup_insert _) h4 h5
  have hd := DeleteVolume_of_remove_ok
    (NodeMounter.setMountPoint (NodeMounter.setMountPoint
      ⟨⟨baseDir, (∅ : AList (fun _ : String => Volume)).insert (generateVolumeID name)
        (freshVolume baseDir ⟨name, capacity, parameters⟩)⟩, fs1⟩ fs3 (generateVolumeID name)
      (freshVolume baseDir ⟨name, capacity, parameters⟩) target) fs5 (generateVolumeID name)
      { freshVolume baseDir ⟨name, capacity, parameters⟩ with MountPoint := target } "")
    (generateVolumeID name)
    { freshVolume baseDir ⟨name, capacity, parameters⟩ with MountPoint := "" }
    fs6 (AList.lookup_insert _) h6
  refine ⟨_, _, _, _, _, hc, rfl, hp, hu, hd, ?_, RemoveAll_ok_not_isDir fs5 fs6 _ h6, ?_⟩
  · cases hdir : fs6.isDir target with
    | false => rfl
    | true =>
      have := RemoveAll_isDir_of fs5 fs6 _ target none h6 hdir
      rw [RemoveAll_ok_not_isDir fs4 fs5 target h5] at this
      exact absurd this (by decide)
  · simp only [VolumeManager.ListVolumes, NodeMounter.setMountPoint, AList.insert_insert]
    simp [AList.insert_empty, AList.erase, AList.singleton]

/-- Witness for C6: the sequence of the specification, `v1` with 2 GiB published at
`/mnt/a`, on a system whose directory tree starts empty. -/
theorem lifecycle_succeeds_witness :
    ∃ (vol : Volume) (w1 w2 w3 w4 : World),
      VolumeManager.CreateVolume startWorld ⟨"v1", some ⟨2 ^ 31, 0⟩, []⟩ = (.ok vol, w1) ∧
      vol.ID = generateVolumeID "v1" ∧
      NodeMounter.NodePublishVolume w1 ⟨vol.ID, "/mnt/a", []⟩ = (.ok (), w2) ∧
      NodeMounter.NodeUnpublishVolume w2 ⟨vol.ID, "/mnt/a"⟩ = (.ok (), w3) ∧
      VolumeManager.DeleteVolume w3 vol.ID = (.ok (), w4) ∧
      w4.fs.isDir "/mnt/a" = false ∧
      w4.fs.isDir vol.Path = false ∧
      VolumeManager.ListVolumes w4 = [] :=
  lifecycle_succeeds emptyFS startWorld.fs oneVolume.fs (MkdirAll oneVolume.fs "/mnt/a").2
    publishedOnce.fs (Unmount publishedOnce.fs "/mnt/a").2
    (RemoveAll (Unmount publishedOnce.fs "/mnt/a").2 "/mnt/a").2
    (RemoveAll (RemoveAll (Unmount publishedOnce.fs "/mnt/a").2 "/mnt/a").2
      "/var/lib/ephemeral-csi/vol-v1").2
    startWorld.mgr "/var/lib/ephemeral-csi" "v1" "/mnt/a" (some ⟨2 ^ 31, 0⟩) [] []
    rfl rfl rfl rfl rfl rfl rfl rfl

/-! ## Unpublishing and the recorded mount point -/

/-- C7, as stated, fails: `v1` was published at `/mnt/a` and then at `/mnt/b`, so its
recorded mount point is `/mnt/b`; unpublishing `/mnt/a` succeeds and the recorded
mount point is empty afterwards, not `/mnt/b`. -/
theorem NodeUnpublishVolume_counterexample :
    (publishedTwice.mgr.volumes.lookup "vol-v1").map Volume.MountPoint = some "/mnt/b" ∧
    (NodeMounter.NodeUnpublishVolume publishedTwice ⟨"vol-v1", "/mnt/a"⟩).1 = .ok () ∧
    ((NodeMounter.NodeUnpublishVolume publishedTwice ⟨"vol-v1", "/mnt/a"⟩).2.mgr.volumes.lookup
      "vol-v1").map Volume.MountPoint = some "" := by
  refine ⟨by decide, rfl, by decide⟩

/-- C7, amended: a successful `NodeUnpublishVolume` leaves the volume registered with an
empty mount point, whatever mount point was recorded before and whatever the target
path is; every other field and every other volume is unchanged. -/
theorem NodeUnpublishVolume_clears (w w1 : World) (req : NodeUnpublishVolumeRequest)
    (volume : Volume)
    (hreg : w.mgr.volumes.lookup req.VolumeId = some volume)
    (h : NodeMounter.NodeUnpublishVolume w req = (.ok (), w1)) :
    w1.mgr.volumes.lookup req.VolumeId = some { volume with MountPoint := "" } ∧
    ∀ id, id ≠ req.VolumeId → w1.mgr.volumes.lookup id = w.mgr.volumes.lookup id := by
  rcases hu : Unmount w.fs req.TargetPath with ⟨_ | e, fs1⟩
  · rcases hr : RemoveAll fs1 req.TargetPath with ⟨_ | e, fs2⟩
    · rw [NodeUnpublishVolume_of_ok w req volume fs1 fs2 hreg hu hr] at h
      simp only [Prod.mk.injEq, true_and] at h
      subst h
      exact ⟨AList.lookup_insert _, fun id hid => AList.lookup_insert_ne hid⟩
    · simp [NodeMounter.NodeUnpublishVolume, VolumeManager.GetVolume, hreg, hu, hr] at h
  · simp [NodeMounter.NodeUnpublishVolume, VolumeManager.GetVolume, hreg, hu] at h

/-- Witness for C7 (amended): the recorded mount point `/mnt/b` is cleared by unpublishing
`/mnt/a`. -/
theorem NodeUnpublishVolume_clears_witness :
    (NodeMounter.NodeUnpublishVolume publishedTwice ⟨"vol-v1", "/mnt/a"⟩).2.mgr.volumes.lookup
        "vol-v1" =
      some (freshVolume "/var/lib/ephemeral-csi" ⟨"v1", some ⟨2 ^ 31, 0⟩, []⟩) :=
  (NodeUnpublishVolume_clears publishedTwice _ ⟨"vol-v1", "/mnt/a"⟩
    { freshVolume "/var/lib/ephemeral-csi" ⟨"v1", some ⟨2 ^ 31, 0⟩, []⟩ with
        MountPoint := "/mnt/b" } (by decide) rfl).1

/-! ## Registered volumes and their directories -/

/-- C8 on the code: after creating the volumes named `a` and `a/b` and deleting the
first, every call having succeeded, the second volume is still registered but no
directory exists at its path: removing the directory of `vol-a` removed the directory
of `vol-a/b`, which lies beneath it. -/
theorem registered_volume_without_directory :
    (VolumeManager.CreateVolume startWorld ⟨"a", none, []⟩).1 =
      .ok (freshVolume "/var/lib/ephemeral-csi" ⟨"a", none, []⟩) ∧
    (VolumeManager.CreateVolume (VolumeManager.CreateVolume startWorld ⟨"a", none, []⟩).2
        ⟨"a/b", none, []⟩).1 =
      .ok (freshVolume "/var/lib/ephemeral-csi" ⟨"a/b", none, []⟩) ∧
    nestedDeleted.1 = .ok () ∧
    nestedDeleted.2.mgr.volumes.lookup "vol-a/b" =
      some (freshVolume "/var/lib/ephemeral-csi" ⟨"a/b", none, []⟩) ∧
    (freshVolume "/var/lib/ephemeral-csi" ⟨"a/b", none, []⟩).Path =
      "/var/lib/ephemeral-csi/vol-a/b" ∧
    nestedDeleted.2.fs.isDir "/var/lib/ephemeral-csi/vol-a/b" = false := by
  refine ⟨rfl, rfl, rfl, by decide, by decide, by decide⟩

/-! ## Listing -/

/-- C9: `ListVolumes` returns one volume for each key of the registry, namely the volume
bound to that key, nothing else, and the same list whatever the file system holds. -/
theorem ListVolumes_exact (w : World) :
    (VolumeManager.ListVolumes w).length = w.mgr.volumes.keys.length ∧
    w.mgr.volumes.keys.Nodup ∧
    (VolumeManager.ListVolumes w).map some =
      w.mgr.volumes.keys.map (fun id => w.mgr.volumes.lookup id) ∧
    (∀ v, v ∈ VolumeManager.ListVolumes w ↔ ∃ id, w.mgr.volumes.lookup id = some v) ∧
    ∀ fs1 : FS, VolumeManager.ListVolumes { w with fs := fs1 } = VolumeManager.ListVolumes w := by
  refine ⟨?_, w.mgr.volumes.keys_nodup, ?_, ?_, fun _ => rfl⟩
  · simp [VolumeManager.ListVolumes, AList.keys, List.keys]
  · simp only [VolumeManager.ListVolumes, AList.keys, List.keys, List.map_map]
    apply List.map_congr_left
    intro e he
    obtain ⟨id, v⟩ := e
    exact (Option.mem_def.mp (AList.mem_lookup_iff.mpr he)).symm
  · intro v
    simp only [VolumeManager.ListVolumes, List.mem_map]
    constructor
    · rintro ⟨⟨id, u⟩, he, rfl⟩
      exact ⟨id, Option.mem_def.mp (AList.mem_lookup_iff.mpr he)⟩
    · rintro ⟨id, hid⟩
      exact ⟨⟨id, v⟩, AList.mem_lookup_iff.mp (Option.mem_def.mpr hid), rfl⟩

/-! ## Derivation of the id -/

/-- C10: the id is the fixed prefix "vol-" followed by the name, and two names with the
same id are the same name. -/
theorem generateVolumeID_injective :
    (∀ name : String, generateVolumeID name = "vol-" ++ name) ∧
    ∀ a b : String, generateVolumeID a = generateVolumeID b → a = b := by
  refine ⟨fun _ => rfl, fun a b h => ?_⟩
  have h1 := congrArg String.data h
  simp only [generateVolumeID, String.data_append] at h1
  exact String.ext (List.append_cancel_left h1)

/-! ## Publishing through the driver without an id or a target -/

/-- C11: when the volume id or the target path of the request is empty,
`Driver.NodePublishVolume` returns an `InvalidArgument` status and makes no call to the
operating system: the file system and the record of calls are what they were. -/
theorem Driver_NodePublishVolume_missing_field (d : Driver) (os : OS)
    (req : NodePublishVolumeRequest) (h : req.VolumeId = "" ∨ req.TargetPath = "") :
    (∃ message, (Driver.NodePublishVolume d os req).1 =
      .error ⟨.InvalidArgument, message, none⟩) ∧
    (Driver.NodePublishVolume d os req).2 = os ∧
    (Driver.NodePublishVolume d os req).2.calls = os.calls ∧
    (Driver.NodePublishVolume d os req).2.fs = os.fs := by
  unfold Driver.NodePublishVolume
  by_cases hid : req.VolumeId = ""
  · rw [if_pos hid]
    exact ⟨⟨_, rfl⟩, rfl, rfl, rfl⟩
  · rw [if_neg hid]
    have ht : req.TargetPath = "" := h.resolve_left hid
    rw [if_pos ht]
    exact ⟨⟨_, rfl⟩, rfl, rfl, rfl⟩

/-- Witness for C11: a request with a volume id and no target path. -/
theorem Driver_NodePublishVolume_missing_field_witness :
    (Driver.NodePublishVolume exampleDriver driverStart ⟨"v1", "", []⟩).2 = driverStart :=
  (Driver_NodePublishVolume_missing_field exampleDriver driverStart ⟨"v1", "", []⟩
    (Or.inr rfl)).2.1

/-! ## Creation through the driver -/

/-- C12: for a non-empty name and a positive required capacity, when the directory can
be created, `Driver.CreateVolume` returns a volume whose id is the name, whose capacity
is the required capacity and whose context is the parameters of the request, and the
directory `Join(basePath, name)` exists afterwards. -/
theorem Driver_CreateVolume_ok (d : Driver) (os : OS) (req : CreateVolumeRequest) (fs1 : FS)
    (hname : req.Name ≠ "") (hcap : 0 < GetRequiredBytes req.CapacityRange)
    (hmk : MkdirAll os.fs (Join [d.basePath, req.Name]) = (none, fs1)) :
    (Driver.CreateVolume d os req).1 =
      .ok { Volume := { VolumeId := req.Name,
                        CapacityBytes := GetRequiredBytes req.CapacityRange,
                        VolumeContext := req.Parameters } } ∧
    (Driver.CreateVolume d os req).2.fs = fs1 ∧
    (Driver.CreateVolume d os req).2.fs.isDir (Join [d.basePath, req.Name]) = true := by
  have hne : GetRequiredBytes req.CapacityRange ≠ 0 := ne_of_gt hcap
  have hrun : Driver.CreateVolume d os req =
      (.ok { Volume := { VolumeId := req.Name,
                         CapacityBytes := GetRequiredBytes req.CapacityRange,
                         VolumeContext := req.Parameters } },
        { fs := fs1, calls := os.calls ++ [.mkdirAll (Join [d.basePath, req.Name])] }) := by
    simp only [Driver.CreateVolume, OS.mkdirAll, hmk, if_neg hname, if_neg hne]
  rw [hrun]
  exact ⟨rfl, rfl, MkdirAll_ok_isDir _ _ _ hmk⟩

/-- Witness for C12: the request of `TestCreateVolume`. -/
theorem Driver_CreateVolume_ok_witness :
    (Driver.CreateVolume exampleDriver driverStart
        ⟨"test-volume", some ⟨1024 * 1024 * 1024, 0⟩, []⟩).1 =
      .ok { Volume := { VolumeId := "test-volume", CapacityBytes := 1024 * 1024 * 1024,
                        VolumeContext := [] } } :=
  (Driver_CreateVolume_ok exampleDriver driverStart
    ⟨"test-volume", some ⟨1024 * 1024 * 1024, 0⟩, []⟩
    (MkdirAll driverStart.fs "/var/lib/ephemeral-csi/test-volume").2
    (by decide) (by decide) rfl).1

/-! ## Deletion through the driver -/

/-- C13: for a non-empty volume id, when `Driver.DeleteVolume` returns success no
directory exists at `Join(basePath, id)` and, the tree being closed under parents, none
exists beneath it; and when no directory exists there before the call, the call
succeeds (for a path that is not `.`). -/
theorem Driver_DeleteVolume_ok (d : Driver) (os : OS) (req : csi.DeleteVolumeRequest)
    (hid : req.VolumeId ≠ "") :
    (∀ os1, Driver.DeleteVolume d os req = (.ok (), os1) →
      os1.fs.isDir (Join [d.basePath, req.VolumeId]) = false ∧
      (os.fs.closed = true →
        ∀ k, beneath (os.fs.locate (Join [d.basePath, req.VolumeId])) k = true →
          os1.fs.hasDir k = false)) ∧
    (os.fs.isDir (Join [d.basePath, req.VolumeId]) = false →
      endsWithDot (Join [d.basePath, req.VolumeId]) = false →
      (Driver.DeleteVolume d os req).1 = .ok ()) := by
  constructor
  · intro os1 h
    rcases hr : RemoveAll os.fs (Join [d.basePath, req.VolumeId]) with ⟨_ | err, fs1⟩
    · have hrun : Driver.DeleteVolume d os req =
          (.ok (), { fs := fs1,
                     calls := os.calls ++ [.removeAll (Join [d.basePath, req.VolumeId])] }) := by
        simp only [Driver.DeleteVolume, OS.removeAll, hr, if_neg hid]
      rw [hrun] at h
      simp only [Prod.mk.injEq, true_and] at h
      subst h
      exact ⟨RemoveAll_ok_not_isDir _ _ _ hr,
        fun hc k hk => RemoveAll_ok_beneath os.fs fs1 _
          (Join_pair_ne_empty d.basePath req.VolumeId hid) hc hr k hk⟩
    · simp [Driver.DeleteVolume, OS.removeAll, hr, if_neg hid] at h
  · intro hdir hdot
    have := RemoveAll_of_missing os.fs _ hdir hdot
    rcases hr : RemoveAll os.fs (Join [d.basePath, req.VolumeId]) with ⟨_ | err, fs1⟩
    · simp only [Driver.DeleteVolume, OS.removeAll, hr, if_neg hid]
    · rw [hr] at this
      simp at this

/-- Witness for C13: the request of `TestDeleteVolume`, once with the directory present
and once on the empty base directory; and the deletion of `a` after `a/b` was created,
which leaves nothing at `a/b`. -/
theorem Driver_DeleteVolume_ok_witness :
    (Driver.DeleteVolume exampleDriver
        (Driver.CreateVolume exampleDriver driverStart ⟨"test-volume", none, []⟩).2
        ⟨"test-volume"⟩).2.fs.isDir "/var/lib/ephemeral-csi/test-volume" = false ∧
    (Driver.DeleteVolume exampleDriver driverStart ⟨"test-volume"⟩).1 = .ok () ∧
    (Driver.DeleteVolume exampleDriver driverNested.2 ⟨"a"⟩).2.fs.hasDir
      ["var", "lib", "ephemeral-csi", "a", "b"] = false :=
  ⟨((Driver_DeleteVolume_ok exampleDriver
        (Driver.CreateVolume exampleDriver driverStart ⟨"test-volume", none, []⟩).2
        ⟨"test-volume"⟩ (by decide)).1 _ rfl).1,
    (Driver_DeleteVolume_ok exampleDriver driverStart ⟨"test-volume"⟩ (by decide)).2
      (by decide) (by decide),
    ((Driver_DeleteVolume_ok exampleDriver driverNested.2 ⟨"a"⟩ (by decide)).1 _ rfl).2
      (by decide) ["var", "lib", "ephemeral-csi", "a", "b"] (by decide)⟩

/-! ## Listing through the driver -/

/-- C14 on the code: on the empty base directory `Driver.CreateVolume` with the name
`a/b` succeeds and returns the id `a/b`; `Driver.ListVolumes` then lists the single id
`a`, which was never created, and does not list `a/b`. -/
theorem Driver_ListVolumes_nested_name :
    NewDriver emptyOS "node-1" "/var/lib/ephemeral-csi" = (.ok exampleDriver, driverStart) ∧
    (Driver.ListVolumes exampleDriver driverStart exampleSize).1 = .ok { Entries := [] } ∧
    driverNested.1 =
      .ok { Volume := { VolumeId := "a/b", CapacityBytes := 1024 * 1024 * 1024,
                        VolumeContext := [] } } ∧
    (Driver.ListVolumes exampleDriver driverNested.2 exampleSize).1 =
      .ok { Entries := [{ Volume := { VolumeId := "a", CapacityBytes := 4096,
                                      VolumeContext := [] } }] } := by
  refine ⟨rfl, rfl, rfl, rfl⟩

/-! ## Volume paths and the base directory -/

/-- C15 on the code: with base directory `/var/lib/ephemeral-csi`, the name
`../../../etc` (id `vol-../../../etc`) makes `CreateVolume` assign and create
`/var/lib/etc`, which is not beneath the base directory; the name `../../..` makes it
register `/var/lib`, and the following `DeleteVolume` removes `/var/lib` together with
the base directory. -/
theorem CreateVolume_outside_base_directory :
    escapedCreate.1.toOption.map Volume.Path = some "/var/lib/etc" ∧
    startWorld.fs.isDir "/var/lib/etc" = false ∧
    escapedCreate.2.fs.isDir "/var/lib/etc" = true ∧
    beneath (startWorld.fs.locate "/var/lib/ephemeral-csi")
      (startWorld.fs.locate "/var/lib/etc") = false ∧
    (VolumeManager.CreateVolume startWorld ⟨"../../..", none, []⟩).1.toOption.map Volume.Path =
      some "/var/lib" ∧
    escapedDelete.1 = .ok () ∧
    escapedDelete.2.fs.isDir "/var/lib" = false ∧
    escapedDelete.2.fs.isDir "/var/lib/ephemeral-csi" = false := by
  refine ⟨by decide, by decide, by decide, by decide, by decide, rfl, by decide, by decide⟩

end EphemeralCSI
